import Mathlib

/-!
# Taximeter simulator: fare engine, sample classifier, persistence gateway

Shallow embedding of the fare accrual engine (`src/lib/fare.ts`), the GPS
sample classifier (`getNoisySampleReason` in the application root component)
and the session-snapshot persistence functions (`src/lib/history.ts`).

JavaScript numbers are modelled as exact values: a `JsNum` is either a finite
rational or one of the non-finite values `nan`, `posInf`, `negInf`.  The
engine's arithmetic is performed on exact rationals (an idealisation of IEEE
doubles; every guard on finiteness in the source is modelled explicitly).
Comparisons follow JavaScript semantics: every comparison with `NaN` is false.
-/

namespace Taximeter

/-- A JavaScript number: a finite rational or one of the non-finite values. -/
inductive JsNum where
  | num (q : ℚ)
  | nan
  | posInf
  | negInf
deriving DecidableEq

/-- JavaScript `Number.isFinite`. -/
def JsNum.isFinite : JsNum → Bool
  | .num _ => true
  | _ => false

/-- The finite value of a `JsNum` (0 for non-finite values; only ever used
under a finiteness guard, mirroring the source's `Number.isFinite` checks). -/
def JsNum.val : JsNum → ℚ
  | .num q => q
  | _ => 0

/-- JavaScript `<=` on numbers: false whenever either side is `NaN`. -/
def jsLe : JsNum → JsNum → Bool
  | .nan, _ => false
  | _, .nan => false
  | .num a, .num b => a ≤ b
  | .negInf, _ => true
  | _, .posInf => true
  | .posInf, _ => false
  | .num _, .negInf => false

/-- JavaScript `<` on numbers: false whenever either side is `NaN`. -/
def jsLt : JsNum → JsNum → Bool
  | .nan, _ => false
  | _, .nan => false
  | .num a, .num b => a < b
  | .posInf, _ => false
  | _, .posInf => true
  | .negInf, .negInf => false
  | .negInf, _ => true
  | .num _, .negInf => false

/-- Type `FarePreset` from `src/lib/fare.ts` (numeric fields as exact rationals). -/
structure FarePreset where
  id : String
  label : String
  baseFareYen : ℚ
  baseDistanceKm : ℚ
  distanceStepKm : ℚ
  distanceStepFareYen : ℚ
  lowSpeedThresholdKmh : ℚ
  lowSpeedStepSeconds : ℚ
  lowSpeedStepFareYen : ℚ
deriving DecidableEq, Inhabited

/-- Type `FareRuntime` from `src/lib/fare.ts`: exactly the four fields declared
there (`baseDistanceRemainingKm`, `distanceRemainderKm`,
`lowSpeedRemainderSeconds`, `fareYen`). -/
structure FareRuntime where
  baseDistanceRemainingKm : ℚ
  distanceRemainderKm : ℚ
  lowSpeedRemainderSeconds : ℚ
  fareYen : ℚ
deriving DecidableEq, Inhabited

/-- The `FARE_PRESETS` configuration list from `src/lib/fare.ts`. -/
def FARE_PRESETS : List FarePreset :=
  [ { id := "tokyo"
    , label := "東京"
    , baseFareYen := 500
    , baseDistanceKm := 1.0
    , distanceStepKm := 0.255
    , distanceStepFareYen := 100
    , lowSpeedThresholdKmh := 10
    , lowSpeedStepSeconds := 90
    , lowSpeedStepFareYen := 100 }
  , { id := "osaka"
    , label := "大阪"
    , baseFareYen := 600
    , baseDistanceKm := 1.3
    , distanceStepKm := 0.26
    , distanceStepFareYen := 100
    , lowSpeedThresholdKmh := 10
    , lowSpeedStepSeconds := 95
    , lowSpeedStepFareYen := 100 } ]

/-- Constant `DEFAULT_FARE_PRESET = FARE_PRESETS[0]!`. -/
def DEFAULT_FARE_PRESET : FarePreset := FARE_PRESETS[0]!

/-- Function `getPresetById`: find by id, falling back to the default preset. -/
def getPresetById (id : String) : FarePreset :=
  (FARE_PRESETS.find? (fun preset => preset.id == id)).getD DEFAULT_FARE_PRESET

/-- Function `createFareRuntime` from `src/lib/fare.ts`. -/
def createFareRuntime (preset : FarePreset) : FareRuntime :=
  { baseDistanceRemainingKm := preset.baseDistanceKm
  , distanceRemainderKm := 0
  , lowSpeedRemainderSeconds := 0
  , fareYen := preset.baseFareYen }

/-- The low-speed branch of `updateFareBySegment`:
`next.lowSpeedRemainderSeconds += deltaSeconds`, then batch-charge
`Math.floor(remainder / lowSpeedStepSeconds)` steps if positive. -/
def lowSpeedUpdate (preset : FarePreset) (runtime : FareRuntime) (deltaSeconds : ℚ) :
    FareRuntime :=
  let rem := runtime.lowSpeedRemainderSeconds + deltaSeconds
  let timeSteps : ℤ := ⌊rem / preset.lowSpeedStepSeconds⌋
  if 0 < timeSteps then
    { runtime with
        lowSpeedRemainderSeconds := rem - (timeSteps : ℚ) * preset.lowSpeedStepSeconds
        fareYen := runtime.fareYen + (timeSteps : ℚ) * preset.lowSpeedStepFareYen }
  else
    { runtime with lowSpeedRemainderSeconds := rem }

/-- The distance branch of `updateFareBySegment`: consume the free base
distance first (`consumed = Math.min(baseDistanceRemainingKm, chargeable)`,
applied only while `baseDistanceRemainingKm > 0`), then batch-charge
`Math.floor(remainder / distanceStepKm)` steps on the leftover distance. -/
def distanceUpdate (preset : FarePreset) (runtime : FareRuntime) (deltaDistanceKm : ℚ) :
    FareRuntime :=
  let consumed :=
    if 0 < runtime.baseDistanceRemainingKm then
      min runtime.baseDistanceRemainingKm deltaDistanceKm
    else 0
  let base := runtime.baseDistanceRemainingKm - consumed
  let chargeable := deltaDistanceKm - consumed
  if 0 < chargeable then
    let rem := runtime.distanceRemainderKm + chargeable
    let distanceSteps : ℤ := ⌊rem / preset.distanceStepKm⌋
    if 0 < distanceSteps then
      { baseDistanceRemainingKm := base
      , distanceRemainderKm := rem - (distanceSteps : ℚ) * preset.distanceStepKm
      , lowSpeedRemainderSeconds := runtime.lowSpeedRemainderSeconds
      , fareYen := runtime.fareYen + (distanceSteps : ℚ) * preset.distanceStepFareYen }
    else
      { runtime with baseDistanceRemainingKm := base, distanceRemainderKm := rem }
  else
    { runtime with baseDistanceRemainingKm := base }

/-- One segment handed to `updateFareBySegment` (and, with an accuracy, to the
classifier): the raw JavaScript numbers. -/
structure Segment where
  deltaDistanceKm : JsNum
  deltaSeconds : JsNum
  speedKmh : JsNum
deriving DecidableEq

/-- Function `updateFareBySegment` from `src/lib/fare.ts`.  The source first copies the
runtime, returns the copy unchanged when
`!Number.isFinite(deltaDistanceKm) || !Number.isFinite(deltaSeconds) ||
deltaSeconds <= 0`, then dispatches on
`speedKmh <= preset.lowSpeedThresholdKmh`.  Here the finiteness guard is the
match on the two delta constructors, and `deltaSeconds <= 0` on a finite
value is the rational comparison. -/
def updateFareBySegment (preset : FarePreset) (runtime : FareRuntime) (seg : Segment) :
    FareRuntime :=
  match seg.deltaDistanceKm, seg.deltaSeconds with
  | JsNum.num deltaDistanceKm, JsNum.num deltaSeconds =>
    if deltaSeconds ≤ 0 then runtime
    else if jsLe seg.speedKmh (JsNum.num preset.lowSpeedThresholdKmh) then
      lowSpeedUpdate preset runtime deltaSeconds
    else
      distanceUpdate preset runtime deltaDistanceKm
  | _, _ => runtime

/-- A valid segment in the sense of the spec: finite deltas, `deltaSeconds > 0`. -/
def validSeg (seg : Segment) : Prop :=
  seg.deltaDistanceKm.isFinite = true ∧ seg.deltaSeconds.isFinite = true ∧
    jsLt (JsNum.num 0) seg.deltaSeconds = true

instance (seg : Segment) : Decidable (validSeg seg) := by
  unfold validSeg; infer_instance

/-- The preset invariant of the spec: all numeric fields positive, the
threshold merely nonnegative. -/
def presetInv (preset : FarePreset) : Prop :=
  0 < preset.baseFareYen ∧ 0 < preset.baseDistanceKm ∧ 0 < preset.distanceStepKm ∧
    0 < preset.distanceStepFareYen ∧ 0 ≤ preset.lowSpeedThresholdKmh ∧
    0 < preset.lowSpeedStepSeconds ∧ 0 < preset.lowSpeedStepFareYen

instance (preset : FarePreset) : Decidable (presetInv preset) := by
  unfold presetInv; infer_instance

/-- Folding a list of segments into the runtime created from the preset:
the sequence of `updateFareBySegment` calls the claims quantify over. -/
def runSegments (preset : FarePreset) (segs : List Segment) : FareRuntime :=
  segs.foldl (updateFareBySegment preset) (createFareRuntime preset)

/-! ## Sample classifier (`getNoisySampleReason`, application root component) -/

def MAX_REASONABLE_SPEED_KMH : ℚ := 180

def POOR_ACCURACY_METERS : ℚ := 80

def MAX_DISTANCE_FACTOR_KM_PER_SEC : ℚ := (MAX_REASONABLE_SPEED_KMH / 3600) * 1.5

/-- Function `getNoisySampleReason`: reject a sample as `invalid_delta`, `speed_spike`,
`distance_jump` or `poor_accuracy_jump`, in that order, or accept it
(`none`).  As in `updateFareBySegment`, the leading
`!Number.isFinite(deltaKm) || !Number.isFinite(deltaSeconds) ||
deltaSeconds <= 0` guard is modelled as the match on the two delta
constructors plus the rational comparison; `accuracyMeters` is
`number | null`, modelled as `Option ℚ`. -/
def getNoisySampleReason (deltaKm deltaSeconds speedKmh : JsNum)
    (accuracyMeters : Option ℚ) : Option String :=
  match deltaKm, deltaSeconds with
  | JsNum.num dk, JsNum.num ds =>
    if ds ≤ 0 then some "invalid_delta"
    else if jsLt (JsNum.num MAX_REASONABLE_SPEED_KMH) speedKmh then some "speed_spike"
    else
      let dynamicDistanceCap := MAX_DISTANCE_FACTOR_KM_PER_SEC * ds + 0.02
      if dynamicDistanceCap < dk then some "distance_jump"
      else
        match accuracyMeters with
        | some acc =>
          if POOR_ACCURACY_METERS < acc ∧ 0.03 < dk then some "poor_accuracy_jump"
          else none
        | none => none
  | _, _ => some "invalid_delta"

/-! ## JavaScript property access on the fare runtime (for `finishSession`)

`finishSession` in the application root component builds the history record
with `distanceChargeSteps: fareRuntimeRef.current.distanceChargeSteps` and
`timeChargeSteps: fareRuntimeRef.current.timeChargeSteps`.  The `FareRuntime`
objects stored in that ref are produced exclusively by `createFareRuntime` /
`updateFareBySegment`, whose object literals carry exactly the four properties
of the `FareRuntime` type.  A JavaScript property read on an object that lacks
the property yields `undefined`; property access is therefore modelled as a
partial map from property names. -/

/-- The properties actually present on a `FareRuntime` object
(`src/lib/fare.ts` lines 13-18); any other name reads as `undefined`
(`none`). -/
def FareRuntime.getProp (runtime : FareRuntime) (key : String) : Option ℚ :=
  if key = "baseDistanceRemainingKm" then some runtime.baseDistanceRemainingKm
  else if key = "distanceRemainderKm" then some runtime.distanceRemainderKm
  else if key = "lowSpeedRemainderSeconds" then some runtime.lowSpeedRemainderSeconds
  else if key = "fareYen" then some runtime.fareYen
  else none

/-- The step-count fields of the `DriveHistoryItem` that `finishSession`
builds.  The `DriveHistoryItem` type (`src/lib/history.ts`) declares both as
`number`; `Option ℚ` makes room for the `undefined` that an absent property
reads as. -/
structure HistoryStepFields where
  distanceChargeSteps : Option ℚ
  timeChargeSteps : Option ℚ
deriving DecidableEq

/-- The two step-count fields of the record built by `finishSession`:
`distanceChargeSteps: fareRuntimeRef.current.distanceChargeSteps`,
`timeChargeSteps: fareRuntimeRef.current.timeChargeSteps`. -/
def finishSessionStepFields (runtime : FareRuntime) : HistoryStepFields :=
  { distanceChargeSteps := runtime.getProp "distanceChargeSteps"
  , timeChargeSteps := runtime.getProp "timeChargeSteps" }

/-! ## Session snapshot persistence (`src/lib/history.ts`)

The persistence gateway is a blob store addressed by a single file; the store
contents are `Option String` (`none` = the snapshot file does not exist,
matching `getInfoAsync(...).exists === false`).  `JSON.parse` composed with
the `typeof parsed === 'object'` shape check is abstracted as a decoder
`String → Option α`; the only fact the claims need about the real decoder is
that the empty string is not valid JSON, i.e. it decodes to `none`. -/

/-- Function `clearSessionSnapshot`: `writeAsStringAsync(SESSION_SNAPSHOT_FILE, '')`. -/
def clearSessionSnapshot (_store : Option String) : Option String := some ""

/-- Function `saveSessionSnapshot`: write the serialized snapshot. -/
def saveSessionSnapshot (snapshotJson : String) (_store : Option String) :
    Option String := some snapshotJson

/-- Function `loadSessionSnapshot`: absent file means `null`; otherwise parse the raw
string, mapping a parse failure (thrown and caught) or a non-object result to
`null`. -/
def loadSessionSnapshot {α : Type} (parse : String → Option α)
    (store : Option String) : Option α :=
  match store with
  | none => none
  | some raw =>
    match parse raw with
    | none => none
    | some snapshot => some snapshot

/-! ## Reference implementation of the step charging (for the refinement claim)

The source batches step charges with `Math.floor(remainder / step)`.  The
spec describes the reference behaviour as an iterative loop: while the
remainder is at least the step size, subtract one step and add one step fare.
`chargeLoop` is that loop; the `0 < stepSize` conjunct in the loop guard
records the preset invariant the spec relies on ("Division by a step size of
0 must not occur — guaranteed by preset invariant") and makes the loop
well-founded. -/

/-- Modelled from the spec: "a reference implementation that iteratively
subtracts one step and adds one step fare while the remainder is at least the
step size". -/
def chargeLoop (stepSize stepFare rem fare : ℚ) : ℚ × ℚ :=
  if h : 0 < stepSize ∧ stepSize ≤ rem then
    chargeLoop stepSize stepFare (rem - stepSize) (fare + stepFare)
  else
    (rem, fare)
termination_by (⌊rem / stepSize⌋).toNat
decreasing_by
  have hone : (1 : ℚ) ≤ rem / stepSize := (one_le_div h.1).mpr h.2
  have hfl : (1 : ℤ) ≤ ⌊rem / stepSize⌋ := by
    exact_mod_cast Int.le_floor.mpr (by exact_mod_cast hone)
  have hdiv : (rem - stepSize) / stepSize = rem / stepSize - 1 := by
    rw [sub_div, div_self h.1.ne']
  have hsub : ⌊(rem - stepSize) / stepSize⌋ = ⌊rem / stepSize⌋ - 1 := by
    rw [hdiv, Int.floor_sub_one]
  omega

/-- The low-speed branch with the iterative loop in place of the batched
floor-division. -/
def lowSpeedUpdateIter (preset : FarePreset) (runtime : FareRuntime)
    (deltaSeconds : ℚ) : FareRuntime :=
  let res := chargeLoop preset.lowSpeedStepSeconds preset.lowSpeedStepFareYen
    (runtime.lowSpeedRemainderSeconds + deltaSeconds) runtime.fareYen
  { runtime with lowSpeedRemainderSeconds := res.1, fareYen := res.2 }

/-- The distance branch with the iterative loop in place of the batched
floor-division. -/
def distanceUpdateIter (preset : FarePreset) (runtime : FareRuntime)
    (deltaDistanceKm : ℚ) : FareRuntime :=
  let consumed :=
    if 0 < runtime.baseDistanceRemainingKm then
      min runtime.baseDistanceRemainingKm deltaDistanceKm
    else 0
  let base := runtime.baseDistanceRemainingKm - consumed
  let chargeable := deltaDistanceKm - consumed
  if 0 < chargeable then
    let res := chargeLoop preset.distanceStepKm preset.distanceStepFareYen
      (runtime.distanceRemainderKm + chargeable) runtime.fareYen
    { baseDistanceRemainingKm := base
    , distanceRemainderKm := res.1
    , lowSpeedRemainderSeconds := runtime.lowSpeedRemainderSeconds
    , fareYen := res.2 }
  else
    { runtime with baseDistanceRemainingKm := base }

/-- Function `updateFareBySegment` with both charging branches replaced by the
iterative reference loop. -/
def updateFareBySegmentIter (preset : FarePreset) (runtime : FareRuntime)
    (seg : Segment) : FareRuntime :=
  match seg.deltaDistanceKm, seg.deltaSeconds with
  | JsNum.num deltaDistanceKm, JsNum.num deltaSeconds =>
    if deltaSeconds ≤ 0 then runtime
    else if jsLe seg.speedKmh (JsNum.num preset.lowSpeedThresholdKmh) then
      lowSpeedUpdateIter preset runtime deltaSeconds
    else
      distanceUpdateIter preset runtime deltaDistanceKm
  | _, _ => runtime

/-- The remainder-range invariant on a runtime, relative to a preset. -/
def remainderInv (preset : FarePreset) (runtime : FareRuntime) : Prop :=
  0 ≤ runtime.distanceRemainderKm ∧ runtime.distanceRemainderKm < preset.distanceStepKm ∧
    0 ≤ runtime.lowSpeedRemainderSeconds ∧
    runtime.lowSpeedRemainderSeconds < preset.lowSpeedStepSeconds

instance (preset : FarePreset) (runtime : FareRuntime) :
    Decidable (remainderInv preset runtime) := by
  unfold remainderInv; infer_instance

/-- A segment whose distance delta, if finite, is nonnegative (every segment
the application produces: its distance deltas are haversine distances). -/
def segNonneg (seg : Segment) : Prop :=
  ∀ q : ℚ, seg.deltaDistanceKm = JsNum.num q → 0 ≤ q

instance (seg : Segment) : Decidable (segNonneg seg) := by
  rcases seg with ⟨dd, ds, sp⟩
  cases dd
  case num q =>
    refine decidable_of_iff (0 ≤ q) ⟨fun h r hr => ?_, fun h => h q rfl⟩
    · cases hr; exact h
  all_goals exact isTrue (fun q h => by cases h)

/-- The full runtime invariant of the spec, relative to a preset. -/
def runtimeInv (preset : FarePreset) (runtime : FareRuntime) : Prop :=
  0 ≤ runtime.baseDistanceRemainingKm ∧
    runtime.baseDistanceRemainingKm ≤ preset.baseDistanceKm ∧
    remainderInv preset runtime

instance (preset : FarePreset) (runtime : FareRuntime) :
    Decidable (runtimeInv preset runtime) := by
  unfold runtimeInv; infer_instance

/-! ## Concrete inputs used by witnesses and counterexamples -/

/-- A preset with unit-sized fields (satisfies the preset invariant and keeps
concrete evaluation in the kernel's reach). -/
def unitPreset : FarePreset :=
  { id := "unit"
  , label := "unit"
  , baseFareYen := 1
  , baseDistanceKm := 1
  , distanceStepKm := 1
  , distanceStepFareYen := 1
  , lowSpeedThresholdKmh := 1
  , lowSpeedStepSeconds := 1
  , lowSpeedStepFareYen := 1 }

/-- A valid distance-mode segment: 1 km in 1 s at 5 km/h. -/
def unitSeg : Segment := ⟨JsNum.num 1, JsNum.num 1, JsNum.num 5⟩

/-- A valid low-speed segment: speed 0 ≤ threshold. -/
def slowSeg : Segment := ⟨JsNum.num 1, JsNum.num 1, JsNum.num 0⟩

/-- A valid segment with a negative distance delta. -/
def negSeg : Segment := ⟨JsNum.num (-1), JsNum.num 1, JsNum.num 5⟩

/-- A distance-mode segment crossing two charge steps under `unitPreset`. -/
def bigSeg : Segment := ⟨JsNum.num 3, JsNum.num 1, JsNum.num 5⟩

/-! ## Helper lemmas -/

/-- Unfolding the iterative loop to the batched floor-division form used by
the source: for a positive step size, the loop subtracts exactly
`⌊rem / stepSize⌋` steps (when that is positive) and charges one step fare
per step. -/
theorem chargeLoop_eq (stepSize stepFare : ℚ) (hs : 0 < stepSize)
    (rem fare : ℚ) :
    chargeLoop stepSize stepFare rem fare =
      if 0 < ⌊rem / stepSize⌋ then
        (rem - (⌊rem / stepSize⌋ : ℚ) * stepSize,
         fare + (⌊rem / stepSize⌋ : ℚ) * stepFare)
      else (rem, fare) := by
  generalize hn : (⌊rem / stepSize⌋).toNat = n
  induction n generalizing rem fare with
  | zero =>
    have hle : ⌊rem / stepSize⌋ ≤ 0 := by omega
    have hlt : rem < stepSize := by
      by_contra hge
      push_neg at hge
      have h1 : (1 : ℚ) ≤ rem / stepSize := (one_le_div hs).mpr hge
      have : (1 : ℤ) ≤ ⌊rem / stepSize⌋ := Int.le_floor.mpr (by exact_mod_cast h1)
      omega
    rw [chargeLoop, dif_neg (by push_neg; intro _; linarith), if_neg (by omega)]
  | succ n ih =>
    have hfl1 : (1 : ℤ) ≤ ⌊rem / stepSize⌋ := by omega
    have hge : stepSize ≤ rem := by
      have h1 : (1 : ℚ) ≤ rem / stepSize := by
        exact_mod_cast (Int.le_floor.mp hfl1)
      exact (one_le_div hs).mp h1
    have hdiv : (rem - stepSize) / stepSize = rem / stepSize - 1 := by
      rw [sub_div, div_self hs.ne']
    have hsub : ⌊(rem - stepSize) / stepSize⌋ = ⌊rem / stepSize⌋ - 1 := by
      rw [hdiv, Int.floor_sub_one]
    have hn' : (⌊(rem - stepSize) / stepSize⌋).toNat = n := by omega
    rw [chargeLoop, dif_pos ⟨hs, hge⟩, ih _ _ hn', hsub]
    by_cases hpos : 0 < ⌊rem / stepSize⌋ - 1
    · rw [if_pos hpos, if_pos (by omega)]
      simp only [Prod.mk.injEq]
      constructor <;> push_cast <;> ring
    · rw [if_neg hpos, if_pos (by omega)]
      have hone : ⌊rem / stepSize⌋ = 1 := by omega
      rw [hone]
      simp only [Prod.mk.injEq]
      constructor <;> push_cast <;> ring

/-- The low-speed branch never decreases the fare. -/
theorem lowSpeedUpdate_fare_mono (preset : FarePreset) (runtime : FareRuntime)
    (deltaSeconds : ℚ) (hf : 0 ≤ preset.lowSpeedStepFareYen) :
    runtime.fareYen ≤ (lowSpeedUpdate preset runtime deltaSeconds).fareYen := by
  simp only [lowSpeedUpdate]
  split_ifs with hsteps
  · exact le_add_of_nonneg_right (mul_nonneg (by exact_mod_cast hsteps.le) hf)
  · exact le_rfl

/-- The distance branch never decreases the fare. -/
theorem distanceUpdate_fare_mono (preset : FarePreset) (runtime : FareRuntime)
    (deltaDistanceKm : ℚ) (hf : 0 ≤ preset.distanceStepFareYen) :
    runtime.fareYen ≤ (distanceUpdate preset runtime deltaDistanceKm).fareYen := by
  simp only [distanceUpdate]
  split_ifs <;>
    first
      | exact le_rfl
      | (rename_i hsteps
         exact le_add_of_nonneg_right (mul_nonneg (by exact_mod_cast hsteps.le) hf))

/-- A single `updateFareBySegment` call never decreases the fare. -/
theorem updateFareBySegment_fare_mono (preset : FarePreset) (runtime : FareRuntime)
    (seg : Segment) (hd : 0 ≤ preset.distanceStepFareYen)
    (hl : 0 ≤ preset.lowSpeedStepFareYen) :
    runtime.fareYen ≤ (updateFareBySegment preset runtime seg).fareYen := by
  rcases seg with ⟨dd, ds, sp⟩
  cases dd <;> cases ds <;> simp only [updateFareBySegment] <;> try exact le_rfl
  split_ifs with h1 h2
  · exact le_rfl
  · exact lowSpeedUpdate_fare_mono _ _ _ hl
  · exact distanceUpdate_fare_mono _ _ _ hd

/-- Appending one segment to a run is one more `updateFareBySegment` call. -/
theorem runSegments_append (preset : FarePreset) (segs : List Segment) (seg : Segment) :
    runSegments preset (segs ++ [seg]) =
      updateFareBySegment preset (runSegments preset segs) seg := by
  unfold runSegments
  rw [List.foldl_append]
  rfl


/-- If the floor of `rem / step` is not positive, the remainder is already
below one step. -/
theorem lt_step_of_floor_nonpos (step rem : ℚ) (hs : 0 < step)
    (h : ⌊rem / step⌋ ≤ 0) : rem < step := by
  have h1 : rem / step < (⌊rem / step⌋ : ℚ) + 1 := Int.lt_floor_add_one _
  have h2 : ((⌊rem / step⌋ : ℤ) : ℚ) ≤ 0 := by exact_mod_cast h
  exact (div_lt_one hs).mp (by linarith)

/-- The low-speed branch leaves the distance-side fields unchanged. -/
theorem lowSpeedUpdate_frame (preset : FarePreset) (runtime : FareRuntime)
    (deltaSeconds : ℚ) :
    (lowSpeedUpdate preset runtime deltaSeconds).baseDistanceRemainingKm =
        runtime.baseDistanceRemainingKm ∧
      (lowSpeedUpdate preset runtime deltaSeconds).distanceRemainderKm =
        runtime.distanceRemainderKm := by
  simp only [lowSpeedUpdate]
  split_ifs <;> exact ⟨rfl, rfl⟩

/-- The distance branch leaves the low-speed remainder unchanged. -/
theorem distanceUpdate_frame (preset : FarePreset) (runtime : FareRuntime)
    (deltaDistanceKm : ℚ) :
    (distanceUpdate preset runtime deltaDistanceKm).lowSpeedRemainderSeconds =
      runtime.lowSpeedRemainderSeconds := by
  simp only [distanceUpdate]
  split_ifs <;> rfl

/-- After the low-speed branch the time remainder is a remainder again:
in `[0, lowSpeedStepSeconds)`. -/
theorem lowSpeedUpdate_rem_range (preset : FarePreset) (runtime : FareRuntime)
    (deltaSeconds : ℚ) (hs : 0 < preset.lowSpeedStepSeconds)
    (h0 : 0 ≤ runtime.lowSpeedRemainderSeconds) (hds : 0 < deltaSeconds) :
    0 ≤ (lowSpeedUpdate preset runtime deltaSeconds).lowSpeedRemainderSeconds ∧
      (lowSpeedUpdate preset runtime deltaSeconds).lowSpeedRemainderSeconds <
        preset.lowSpeedStepSeconds := by
  simp only [lowSpeedUpdate]
  split_ifs with h <;> dsimp only
  · exact ⟨Int.sub_floor_div_mul_nonneg _ hs, Int.sub_floor_div_mul_lt _ hs⟩
  · push_neg at h
    exact ⟨by linarith, lt_step_of_floor_nonpos _ _ hs h⟩

/-- After the distance branch, for a nonnegative distance delta: the free
base distance does not increase, stays in `[0, baseDistanceKm]`, and the
distance remainder is a remainder again. -/
theorem distanceUpdate_inv (preset : FarePreset) (runtime : FareRuntime)
    (deltaDistanceKm : ℚ) (hs : 0 < preset.distanceStepKm)
    (hb0 : 0 ≤ runtime.baseDistanceRemainingKm)
    (hbk : runtime.baseDistanceRemainingKm ≤ preset.baseDistanceKm)
    (hr0 : 0 ≤ runtime.distanceRemainderKm)
    (hrk : runtime.distanceRemainderKm < preset.distanceStepKm)
    (hdd : 0 ≤ deltaDistanceKm) :
    (distanceUpdate preset runtime deltaDistanceKm).baseDistanceRemainingKm ≤
        runtime.baseDistanceRemainingKm ∧
      0 ≤ (distanceUpdate preset runtime deltaDistanceKm).baseDistanceRemainingKm ∧
      (distanceUpdate preset runtime deltaDistanceKm).baseDistanceRemainingKm ≤
        preset.baseDistanceKm ∧
      0 ≤ (distanceUpdate preset runtime deltaDistanceKm).distanceRemainderKm ∧
      (distanceUpdate preset runtime deltaDistanceKm).distanceRemainderKm <
        preset.distanceStepKm := by
  simp only [distanceUpdate]
  have hminb := min_le_left runtime.baseDistanceRemainingKm deltaDistanceKm
  have hmind := min_le_right runtime.baseDistanceRemainingKm deltaDistanceKm
  split_ifs with hbase hcharge hsteps hcharge2 hsteps2 <;> dsimp only
  · have hmin0 := le_min hbase.le hdd
    refine ⟨by linarith, by linarith, by linarith, ?_, ?_⟩
    · exact Int.sub_floor_div_mul_nonneg _ hs
    · exact Int.sub_floor_div_mul_lt _ hs
  · push_neg at hsteps
    have hmin0 := le_min hbase.le hdd
    exact ⟨by linarith, by linarith, by linarith,
      by linarith, lt_step_of_floor_nonpos _ _ hs hsteps⟩
  · have hmin0 := le_min hbase.le hdd
    exact ⟨by linarith, by linarith, by linarith, hr0, hrk⟩
  · push_neg at hbase
    refine ⟨by linarith, by linarith, by linarith, ?_, ?_⟩
    · exact Int.sub_floor_div_mul_nonneg _ hs
    · exact Int.sub_floor_div_mul_lt _ hs
  · push_neg at hbase hsteps2
    exact ⟨by linarith, by linarith, by linarith, by linarith,
      lt_step_of_floor_nonpos _ _ hs hsteps2⟩
  · push_neg at hbase
    exact ⟨by linarith, by linarith, by linarith, hr0, hrk⟩

/-- One `updateFareBySegment` call preserves the runtime invariant and never
increases the free base distance, for a segment with nonnegative distance
delta. -/
theorem updateFareBySegment_inv (preset : FarePreset) (runtime : FareRuntime)
    (seg : Segment) (hp : presetInv preset) (hnn : segNonneg seg)
    (hr : runtimeInv preset runtime) :
    runtimeInv preset (updateFareBySegment preset runtime seg) ∧
      (updateFareBySegment preset runtime seg).baseDistanceRemainingKm ≤
        runtime.baseDistanceRemainingKm := by
  obtain ⟨hb0, hbk, hr0, hrk, hl0, hlk⟩ := hr
  obtain ⟨-, -, hstep, -, -, hlstep, -⟩ := hp
  rcases seg with ⟨dd, ds, sp⟩
  cases dd <;> cases ds <;> simp only [updateFareBySegment] <;>
    try exact ⟨⟨hb0, hbk, hr0, hrk, hl0, hlk⟩, le_rfl⟩
  rename_i q r
  split_ifs with h1 h2
  · exact ⟨⟨hb0, hbk, hr0, hrk, hl0, hlk⟩, le_rfl⟩
  · push_neg at h1
    obtain ⟨hf1, hf2⟩ := lowSpeedUpdate_frame preset runtime r
    obtain ⟨hg1, hg2⟩ := lowSpeedUpdate_rem_range preset runtime r hlstep hl0 h1
    exact ⟨⟨hf1 ▸ hb0, hf1 ▸ hbk, hf2 ▸ hr0, hf2 ▸ hrk, hg1, hg2⟩, le_of_eq hf1⟩
  · have hq : 0 ≤ q := hnn q rfl
    obtain ⟨hi1, hi2, hi3, hi4, hi5⟩ :=
      distanceUpdate_inv preset runtime q hstep hb0 hbk hr0 hrk hq
    have hf := distanceUpdate_frame preset runtime q
    exact ⟨⟨hi2, hi3, hi4, hi5, hf ▸ hl0, hf ▸ hlk⟩, hi1⟩

/-- Folding segments with nonnegative distance deltas preserves the runtime
invariant from any invariant-satisfying start. -/
theorem foldl_inv (preset : FarePreset) (hp : presetInv preset) :
    ∀ (segs : List Segment) (runtime : FareRuntime),
      (∀ s ∈ segs, segNonneg s) → runtimeInv preset runtime →
      runtimeInv preset (segs.foldl (updateFareBySegment preset) runtime)
  | [], runtime, _, hr => hr
  | s :: rest, runtime, hnn, hr => by
    have hstep := updateFareBySegment_inv preset runtime s hp
      (hnn s (List.mem_cons_self s rest)) hr
    exact foldl_inv preset hp rest (updateFareBySegment preset runtime s)
      (fun t ht => hnn t (List.mem_cons_of_mem s ht)) hstep.1

/-- The freshly created runtime satisfies the invariant. -/
theorem createFareRuntime_inv (preset : FarePreset) (hp : presetInv preset) :
    runtimeInv preset (createFareRuntime preset) := by
  obtain ⟨-, hbase, hstep, -, -, hlstep, -⟩ := hp
  exact ⟨hbase.le, le_rfl, le_rfl, hstep, le_rfl, hlstep⟩

/-- Every run over segments with nonnegative distance deltas satisfies the
runtime invariant. -/
theorem runSegments_inv (preset : FarePreset) (segs : List Segment)
    (hp : presetInv preset) (hnn : ∀ s ∈ segs, segNonneg s) :
    runtimeInv preset (runSegments preset segs) :=
  foldl_inv preset hp segs (createFareRuntime preset) hnn
    (createFareRuntime_inv preset hp)

/-- The batched low-speed branch agrees with the iterative one. -/
theorem lowSpeedUpdate_eq_iter (preset : FarePreset) (runtime : FareRuntime)
    (deltaSeconds : ℚ) (hs : 0 < preset.lowSpeedStepSeconds) :
    lowSpeedUpdate preset runtime deltaSeconds =
      lowSpeedUpdateIter preset runtime deltaSeconds := by
  simp only [lowSpeedUpdate, lowSpeedUpdateIter]
  rw [chargeLoop_eq _ _ hs]
  split_ifs <;> rfl

/-- The batched distance branch agrees with the iterative one. -/
theorem distanceUpdate_eq_iter (preset : FarePreset) (runtime : FareRuntime)
    (deltaDistanceKm : ℚ) (hs : 0 < preset.distanceStepKm) :
    distanceUpdate preset runtime deltaDistanceKm =
      distanceUpdateIter preset runtime deltaDistanceKm := by
  simp only [distanceUpdate, distanceUpdateIter]
  rw [chargeLoop_eq _ _ hs]
  split_ifs <;> rfl

/-- Function `updateFareBySegment` agrees with its iterative reference for positive
step sizes. -/
theorem updateFareBySegment_eq_iter (preset : FarePreset) (runtime : FareRuntime)
    (seg : Segment) (hdk : 0 < preset.distanceStepKm)
    (hls : 0 < preset.lowSpeedStepSeconds) :
    updateFareBySegment preset runtime seg =
      updateFareBySegmentIter preset runtime seg := by
  rcases seg with ⟨dd, ds, sp⟩
  cases dd <;> cases ds <;>
    simp only [updateFareBySegment, updateFareBySegmentIter] <;> try rfl
  split_ifs with h1 h2
  · rfl
  · exact lowSpeedUpdate_eq_iter _ _ _ hls
  · exact distanceUpdate_eq_iter _ _ _ hdk

/-- Having `jsLt a b` forces `jsLe b a` to be false (JavaScript trichotomy on the
non-`NaN` values; comparisons with `NaN` are uniformly false). -/
theorem jsLe_eq_false_of_jsLt (a b : JsNum) (h : jsLt a b = true) :
    jsLe b a = false := by
  cases a <;> cases b <;> simp_all [jsLt, jsLe]


/-! ## Claims -/

/-- Claim C1: for every preset satisfying the preset invariant and every
sequence of `updateFareBySegment` calls on valid segments starting from
`createFareRuntime preset`, `fareYen` never decreases from one call to the
next. -/
theorem claim_C1_fare_monotone (preset : FarePreset) (segs : List Segment)
    (seg : Segment) (hp : presetInv preset)
    (hv : ∀ t ∈ segs ++ [seg], validSeg t) :
    (runSegments preset segs).fareYen ≤
      (runSegments preset (segs ++ [seg])).fareYen := by
  rw [runSegments_append]
  exact updateFareBySegment_fare_mono preset _ seg
    hp.2.2.2.1.le hp.2.2.2.2.2.2.le

/-- Witness for C1 at a concrete preset and segment list. -/
theorem claim_C1_fare_monotone_witness :
    presetInv unitPreset ∧ (∀ t ∈ ([] : List Segment) ++ [unitSeg], validSeg t) ∧
      (runSegments unitPreset []).fareYen ≤
        (runSegments unitPreset ([] ++ [unitSeg])).fareYen :=
  ⟨by decide, by decide, claim_C1_fare_monotone unitPreset [] unitSeg (by decide) (by decide)⟩

/-- Claim C2 counterexample: the claim as stated is false — a valid segment
with a negative `deltaDistanceKm` makes `updateFareBySegment` subtract a
negative `consumed` from the free base distance, so
`baseDistanceRemainingKm` increases above `preset.baseDistanceKm` (here from
1 to 2 under `unitPreset`). -/
theorem claim_C2_counterexample :
    presetInv unitPreset ∧ validSeg negSeg ∧
      (runSegments unitPreset [negSeg]).baseDistanceRemainingKm = 2 ∧
      ¬((runSegments unitPreset [negSeg]).baseDistanceRemainingKm ≤
          (runSegments unitPreset []).baseDistanceRemainingKm) ∧
      ¬((runSegments unitPreset [negSeg]).baseDistanceRemainingKm ≤
          unitPreset.baseDistanceKm) := by
  refine ⟨by decide, by decide, ?_, ?_, ?_⟩ <;>
    norm_num [runSegments, createFareRuntime, updateFareBySegment, distanceUpdate,
      jsLe, unitPreset, negSeg, min_def]

/-- Claim C2 (amended): restricted to segments whose (finite) distance delta
is nonnegative — which is every segment the application produces, its
distance deltas being haversine distances — after every update
`baseDistanceRemainingKm` has not increased and stays in
`[0, preset.baseDistanceKm]`, `distanceRemainderKm ∈ [0, distanceStepKm)` and
`lowSpeedRemainderSeconds ∈ [0, lowSpeedStepSeconds)`. -/
theorem claim_C2_amended (preset : FarePreset) (segs : List Segment)
    (seg : Segment) (hp : presetInv preset)
    (hnn : ∀ t ∈ segs ++ [seg], segNonneg t) :
    runtimeInv preset (runSegments preset (segs ++ [seg])) ∧
      (runSegments preset (segs ++ [seg])).baseDistanceRemainingKm ≤
        (runSegments preset segs).baseDistanceRemainingKm := by
  constructor
  · exact runSegments_inv preset _ hp hnn
  · rw [runSegments_append]
    refine (updateFareBySegment_inv preset _ seg hp
      (hnn seg (by simp)) (runSegments_inv preset segs hp ?_)).2
    intro t ht
    exact hnn t (by simp [ht])

/-- Witness for the amended C2 at a concrete preset and segment list. -/
theorem claim_C2_amended_witness :
    presetInv unitPreset ∧ (∀ t ∈ ([] : List Segment) ++ [unitSeg], segNonneg t) ∧
      (runtimeInv unitPreset (runSegments unitPreset ([] ++ [unitSeg])) ∧
        (runSegments unitPreset ([] ++ [unitSeg])).baseDistanceRemainingKm ≤
          (runSegments unitPreset []).baseDistanceRemainingKm) :=
  ⟨by decide, by decide, claim_C2_amended unitPreset [] unitSeg (by decide) (by decide)⟩

/-- Claim C3: with the default (tokyo) preset — `baseFareYen = 500`,
`baseDistanceKm = 1.0`, `distanceStepKm = 0.255`,
`distanceStepFareYen = 100` — a single segment of 1.765 km in 60 s at
30 km/h consumes the whole free kilometre, charges three full 0.255 km
steps, and yields `fareYen = 800` with both distance fields at 0. -/
theorem claim_C3_distance_example :
    DEFAULT_FARE_PRESET.baseFareYen = 500 ∧
      DEFAULT_FARE_PRESET.baseDistanceKm = 1.0 ∧
      DEFAULT_FARE_PRESET.distanceStepKm = 0.255 ∧
      DEFAULT_FARE_PRESET.distanceStepFareYen = 100 ∧
      updateFareBySegment DEFAULT_FARE_PRESET (createFareRuntime DEFAULT_FARE_PRESET)
          ⟨JsNum.num 1.765, JsNum.num 60, JsNum.num 30⟩ =
        { baseDistanceRemainingKm := 0
        , distanceRemainderKm := 0
        , lowSpeedRemainderSeconds := 0
        , fareYen := 800 } := by
  refine ⟨rfl, rfl, rfl, rfl, ?_⟩
  norm_num [createFareRuntime, DEFAULT_FARE_PRESET, FARE_PRESETS,
    updateFareBySegment, lowSpeedUpdate, distanceUpdate, jsLe, min_def]

/-- Claim C4 (code bug): the history record that `finishSession` builds
cannot carry cumulative step counts — the `FareRuntime` objects in
`fareRuntimeRef` have no `distanceChargeSteps` / `timeChargeSteps`
properties at all, so both reads yield `undefined` (`none`), for every
session; in particular for a session that actually charged two distance
steps (fare 1 → 3 under `unitPreset`). -/
theorem claim_C4_steps_undefined :
    (∀ (preset : FarePreset) (segs : List Segment),
        finishSessionStepFields (runSegments preset segs) =
          { distanceChargeSteps := none, timeChargeSteps := none }) ∧
      finishSessionStepFields (runSegments unitPreset [bigSeg]) =
        { distanceChargeSteps := none, timeChargeSteps := none } ∧
      (runSegments unitPreset [bigSeg]).fareYen = 3 := by
  refine ⟨fun preset segs => rfl, rfl, ?_⟩
  norm_num [runSegments, createFareRuntime, updateFareBySegment, distanceUpdate,
    jsLe, unitPreset, bigSeg, min_def]

/-- Claim C5: the classifier checks its rules in the fixed order
`invalid_delta`, `speed_spike`, `distance_jump`, `poor_accuracy_jump` with
first match winning: `deltaSeconds = 0` is always `invalid_delta`;
`speedKmh = 200` with finite positive deltas is `speed_spike`;
`distance_jump` is returned exactly when the deltas pass the first check, the
speed passes the second, and `deltaKm > (180/3600 * 1.5) * deltaSeconds +
0.02`; and the sample `deltaKm = 0.01, deltaSeconds = 5, speedKmh = 7.2,
accuracyMeters = 20` is accepted. -/
theorem claim_C5_classifier :
    (∀ (dk sp : JsNum) (acc : Option ℚ),
        getNoisySampleReason dk (JsNum.num 0) sp acc = some "invalid_delta") ∧
      (∀ (qdk qds : ℚ) (acc : Option ℚ), 0 < qds →
        getNoisySampleReason (JsNum.num qdk) (JsNum.num qds) (JsNum.num 200) acc =
          some "speed_spike") ∧
      (∀ (dk ds sp : JsNum) (acc : Option ℚ),
        getNoisySampleReason dk ds sp acc = some "distance_jump" ↔
          ∃ qdk qds : ℚ, dk = JsNum.num qdk ∧ ds = JsNum.num qds ∧ 0 < qds ∧
            jsLt (JsNum.num MAX_REASONABLE_SPEED_KMH) sp = false ∧
            MAX_DISTANCE_FACTOR_KM_PER_SEC * qds + 0.02 < qdk) ∧
      getNoisySampleReason (JsNum.num 0.01) (JsNum.num 5) (JsNum.num 7.2)
        (some 20) = none := by
  refine ⟨?_, ?_, ?_, ?_⟩
  · intro dk sp acc
    cases dk <;> simp [getNoisySampleReason]
  · intro qdk qds acc h
    simp only [getNoisySampleReason]
    rw [if_neg (not_le.mpr h),
      if_pos (by norm_num [jsLt, MAX_REASONABLE_SPEED_KMH])]
  · intro dk ds sp acc
    cases dk <;> cases ds
    case num.num qdk qds =>
      simp only [getNoisySampleReason]
      by_cases h1 : qds ≤ 0
      · rw [if_pos h1]
        constructor
        · intro h; simp at h
        · rintro ⟨q, r, hq, hr, hpos, -, -⟩
          injection hr with hr'
          subst hr'
          exact absurd hpos (not_lt.mpr h1)
      · push_neg at h1
        rw [if_neg (not_le.mpr h1)]
        by_cases h2 : jsLt (JsNum.num MAX_REASONABLE_SPEED_KMH) sp = true
        · rw [if_pos h2]
          constructor
          · intro h; simp at h
          · rintro ⟨q, r, -, -, -, hfalse, -⟩
            rw [h2] at hfalse
            cases hfalse
        · have h2' : jsLt (JsNum.num MAX_REASONABLE_SPEED_KMH) sp = false :=
            Bool.eq_false_iff.mpr h2
          rw [if_neg h2]
          by_cases h3 : MAX_DISTANCE_FACTOR_KM_PER_SEC * qds + 0.02 < qdk
          · rw [if_pos h3]
            exact ⟨fun _ => ⟨qdk, qds, rfl, rfl, h1, h2', h3⟩, fun _ => rfl⟩
          · rw [if_neg h3]
            constructor
            · intro h
              cases acc with
              | none => simp at h
              | some a =>
                dsimp only at h
                by_cases h4 : POOR_ACCURACY_METERS < a ∧ 0.03 < qdk
                · rw [if_pos h4] at h; simp at h
                · rw [if_neg h4] at h; simp at h
            · rintro ⟨q, r, hq, hr, -, -, hcap⟩
              injection hq with hq'
              injection hr with hr'
              subst hq'
              subst hr'
              exact absurd hcap h3
    all_goals simp [getNoisySampleReason]
  · norm_num [getNoisySampleReason, jsLt, MAX_REASONABLE_SPEED_KMH,
      MAX_DISTANCE_FACTOR_KM_PER_SEC, POOR_ACCURACY_METERS]

/-- Witness for C5 at concrete samples. -/
theorem claim_C5_classifier_witness :
    getNoisySampleReason (JsNum.num 1) (JsNum.num 0) JsNum.nan none =
        some "invalid_delta" ∧
      (0 : ℚ) < 5 ∧
      getNoisySampleReason (JsNum.num 1) (JsNum.num 5) (JsNum.num 200) none =
        some "speed_spike" :=
  ⟨claim_C5_classifier.1 (JsNum.num 1) JsNum.nan none, by norm_num,
    claim_C5_classifier.2.1 1 5 none (by norm_num)⟩

/-- Claim C6: for a valid segment, a speed strictly above the threshold
leaves `lowSpeedRemainderSeconds` unchanged, and a speed at or below the
threshold leaves `baseDistanceRemainingKm` and `distanceRemainderKm`
unchanged. -/
theorem claim_C6_mode_frame (preset : FarePreset) (runtime : FareRuntime)
    (seg : Segment) (hv : validSeg seg) :
    (jsLt (JsNum.num preset.lowSpeedThresholdKmh) seg.speedKmh = true →
        (updateFareBySegment preset runtime seg).lowSpeedRemainderSeconds =
          runtime.lowSpeedRemainderSeconds) ∧
      (jsLe seg.speedKmh (JsNum.num preset.lowSpeedThresholdKmh) = true →
        (updateFareBySegment preset runtime seg).baseDistanceRemainingKm =
            runtime.baseDistanceRemainingKm ∧
          (updateFareBySegment preset runtime seg).distanceRemainderKm =
            runtime.distanceRemainderKm) := by
  obtain ⟨hf1, hf2, hpos⟩ := hv
  rcases seg with ⟨dd, ds, sp⟩
  cases dd <;> cases ds <;> simp only [JsNum.isFinite] at hf1 hf2 <;> try cases hf1
  all_goals try cases hf2
  simp only [jsLt, decide_eq_true_eq] at hpos
  constructor
  · intro hlt
    have hle := jsLe_eq_false_of_jsLt _ _ hlt
    simp only [updateFareBySegment]
    rw [if_neg (not_le.mpr hpos), if_neg (by simp [hle])]
    exact distanceUpdate_frame preset runtime _
  · intro hle
    simp only [updateFareBySegment]
    rw [if_neg (not_le.mpr hpos), if_pos hle]
    exact lowSpeedUpdate_frame preset runtime _

/-- Witness for C6: a fast segment and a slow segment under `unitPreset`. -/
theorem claim_C6_mode_frame_witness :
    validSeg unitSeg ∧ validSeg slowSeg ∧
      (updateFareBySegment unitPreset (createFareRuntime unitPreset)
            unitSeg).lowSpeedRemainderSeconds =
        (createFareRuntime unitPreset).lowSpeedRemainderSeconds ∧
      ((updateFareBySegment unitPreset (createFareRuntime unitPreset)
              slowSeg).baseDistanceRemainingKm =
          (createFareRuntime unitPreset).baseDistanceRemainingKm ∧
        (updateFareBySegment unitPreset (createFareRuntime unitPreset)
              slowSeg).distanceRemainderKm =
          (createFareRuntime unitPreset).distanceRemainderKm) :=
  ⟨by decide, by decide,
    (claim_C6_mode_frame unitPreset (createFareRuntime unitPreset) unitSeg
      (by decide)).1 (by decide),
    (claim_C6_mode_frame unitPreset (createFareRuntime unitPreset) slowSeg
      (by decide)).2 (by decide)⟩

/-- Claim C7: a non-finite `deltaDistanceKm` or `deltaSeconds`, or a
non-positive `deltaSeconds`, makes `updateFareBySegment` return the runtime
unchanged, regardless of `speedKmh`. -/
theorem claim_C7_invalid_noop (preset : FarePreset) (runtime : FareRuntime)
    (seg : Segment)
    (h : seg.deltaDistanceKm.isFinite = false ∨ seg.deltaSeconds.isFinite = false ∨
        jsLe seg.deltaSeconds (JsNum.num 0) = true) :
    updateFareBySegment preset runtime seg = runtime := by
  rcases seg with ⟨dd, ds, sp⟩
  cases dd <;> cases ds <;> simp only [updateFareBySegment] <;> try rfl
  simp only [JsNum.isFinite, jsLe, decide_eq_true_eq] at h
  rcases h with h | h | h
  · cases h
  · cases h
  · rw [if_pos h]

/-- Witness for C7: a zero-duration segment leaves the fresh runtime as is. -/
theorem claim_C7_invalid_noop_witness :
    ((⟨JsNum.num 1, JsNum.num 0, JsNum.num 5⟩ : Segment).deltaDistanceKm.isFinite
          = false ∨
        (⟨JsNum.num 1, JsNum.num 0, JsNum.num 5⟩ : Segment).deltaSeconds.isFinite
          = false ∨
        jsLe (⟨JsNum.num 1, JsNum.num 0, JsNum.num 5⟩ : Segment).deltaSeconds
          (JsNum.num 0) = true) ∧
      updateFareBySegment unitPreset (createFareRuntime unitPreset)
          ⟨JsNum.num 1, JsNum.num 0, JsNum.num 5⟩ =
        createFareRuntime unitPreset :=
  ⟨Or.inr (Or.inr (by decide)),
    claim_C7_invalid_noop unitPreset (createFareRuntime unitPreset)
      ⟨JsNum.num 1, JsNum.num 0, JsNum.num 5⟩ (Or.inr (Or.inr (by decide)))⟩

/-- Claim C8: under the preset invariant, the remainder-range invariant and a
valid segment, the batched floor-division computation equals the iterative
one-step-at-a-time reference implementation. -/
theorem claim_C8_batch_eq_iterative (preset : FarePreset) (runtime : FareRuntime)
    (seg : Segment) (hp : presetInv preset) (hr : remainderInv preset runtime)
    (hv : validSeg seg) :
    updateFareBySegment preset runtime seg =
      updateFareBySegmentIter preset runtime seg :=
  updateFareBySegment_eq_iter preset runtime seg hp.2.2.1 hp.2.2.2.2.2.1

/-- Witness for C8: a two-step segment under `unitPreset`. -/
theorem claim_C8_batch_eq_iterative_witness :
    presetInv unitPreset ∧ remainderInv unitPreset (createFareRuntime unitPreset) ∧
      validSeg bigSeg ∧
      updateFareBySegment unitPreset (createFareRuntime unitPreset) bigSeg =
        updateFareBySegmentIter unitPreset (createFareRuntime unitPreset) bigSeg :=
  ⟨by decide, by decide, by decide,
    claim_C8_batch_eq_iterative unitPreset (createFareRuntime unitPreset) bigSeg
      (by decide) (by decide) (by decide)⟩

/-- Claim C9: `getPresetById` is total, and an id matching no entry of
`FARE_PRESETS` falls back to the first (default) preset, whose id is
`tokyo` — so a snapshot restored with an unknown `presetId` silently
proceeds under the default pricing schedule. -/
theorem claim_C9_unknown_id_default (id : String)
    (h : ∀ preset ∈ FARE_PRESETS, preset.id ≠ id) :
    getPresetById id = DEFAULT_FARE_PRESET ∧ DEFAULT_FARE_PRESET.id = "tokyo" := by
  refine ⟨?_, rfl⟩
  unfold getPresetById
  have hnone : FARE_PRESETS.find? (fun preset => preset.id == id) = none := by
    rw [List.find?_eq_none]
    intro p hp
    simpa using h p hp
  rw [hnone]
  rfl

/-- Witness for C9 at the unknown id `kyoto`. -/
theorem claim_C9_unknown_id_default_witness :
    (∀ preset ∈ FARE_PRESETS, preset.id ≠ "kyoto") ∧
      (getPresetById "kyoto" = DEFAULT_FARE_PRESET ∧
        DEFAULT_FARE_PRESET.id = "tokyo") :=
  ⟨by decide, claim_C9_unknown_id_default "kyoto" (by decide)⟩

/-- Claim C10: clearing the snapshot writes an empty string, and a
subsequent load maps the unparseable blob to `none` — for every decoder that
(like `JSON.parse` followed by the object-shape check) fails on the empty
string. -/
theorem claim_C10_clear_then_load {α : Type} (parse : String → Option α)
    (store : Option String) (hparse : parse "" = none) :
    loadSessionSnapshot parse (clearSessionSnapshot store) = none := by
  simp [loadSessionSnapshot, clearSessionSnapshot, hparse]

/-- Witness for C10 with a concrete decoder that only accepts `[]`. -/
theorem claim_C10_clear_then_load_witness :
    ((fun raw => if raw = "[]" then (some () : Option Unit) else none) "" = none) ∧
      loadSessionSnapshot
          (fun raw => if raw = "[]" then (some () : Option Unit) else none)
          (clearSessionSnapshot none) = none :=
  ⟨by decide,
    claim_C10_clear_then_load
      (fun raw => if raw = "[]" then (some () : Option Unit) else none) none
      (by decide)⟩

end Taximeter
